import Mathlib

/-!
# `nsenter`: joining the network namespace of a target process

A shallow embedding of `src/nsenter/nsenter.c` (kata-containers/shim).

The C function is

```
int nsenter(int nsPid)
{
	int nsFd, ret;
	char *path;

	path = malloc(sizeof(char)*64);
	if (path == NULL)
		return -1;
	sprintf(path, "/proc/%d/ns/net", nsPid);
	nsFd = open(path, O_RDONLY);
	if (nsFd < 0) {
		free(path);
		return -1;
	}
	ret = setns(nsFd, CLONE_NEWNET);

	free(path);
	close(nsFd);
	return ret;
}
```

The function is pure control flow around five services of the platform
(`malloc`, `open`, `setns`, `free`, `close`) and one of the C library
(`sprintf`).  The platform is a record of answers (`Platform`), the process
is an explicit state (`Proc`), and every call is written to a log
(`World.calls`) in the order in which it is made, so that statements about
"which calls, in which order" are statements about a list.
-/

namespace Nsenter

/-! ## C library: `sprintf` with the conversion `%d` -/

/-- The character of the decimal digit `d` (the C expression `'0' + d`). -/
def digit (d : Nat) : Char := Char.ofNat (48 + d)

/-- Decimal digits of `n`, most significant first, in front of `acc`: the
usual loop "emit `n % 10`, continue with `n / 10` until it is zero".  The
first argument bounds the number of iterations. -/
def utoa : Nat → Nat → List Char → List Char
  | 0, _, acc => acc
  | fuel + 1, n, acc =>
    if n / 10 = 0 then digit (n % 10) :: acc
    else utoa fuel (n / 10) (digit (n % 10) :: acc)

/-- The conversion `%d` of `printf`: a minus sign for a negative value, then
the decimal digits of the magnitude, no padding. -/
def fmt_d (i : Int) : List Char :=
  if i < 0 then '-' :: utoa (i.natAbs + 1) i.natAbs []
  else utoa (i.natAbs + 1) i.natAbs []

/-- The text `sprintf` writes for a format and its `int` arguments (the
terminating NUL byte excluded).  Only the conversion `%d` is interpreted;
every other character of the format is copied. -/
def sprintf : List Char → List Int → List Char
  | [], _ => []
  | [c], _ => [c]
  | c :: d :: rest, args =>
    if c = '%' ∧ d = 'd' then
      match args with
      | [] => sprintf rest []
      | a :: as => fmt_d a ++ sprintf rest as
    else c :: sprintf (d :: rest) args

/-! ## Constants -/

/-- The flag `O_RDONLY` of `<fcntl.h>`. -/
def O_RDONLY : Int := 0

/-- Modelled from the spec: the header `namespace.h`, which supplies the
`CLONE_NEW*` flags, is not among the sources; this is the selector of the
network-namespace class (the value Linux gives `CLONE_NEWNET`). -/
def CLONE_NEWNET : Int := 0x40000000

/-- Number of bytes `nsenter` allocates for the path. -/
def PATH_BYTES : Nat := 64

/-- The format string of the path. -/
def PATH_FORMAT : List Char := "/proc/%d/ns/net".toList

/-- The path `nsenter` builds for a target: what `sprintf` writes for the
format `"/proc/%d/ns/net"` and the argument `nsPid`. -/
def ns_path (nsPid : Int) : List Char := sprintf PATH_FORMAT [nsPid]

/-! ## Platform and process state -/

/-- The answers of the platform during one call of `nsenter`.  Each service
is asked at most once per call, so a record of answers covers every
behaviour the platform can show. -/
structure Platform where
  /-- Does `malloc(size)` return a non-NULL pointer? -/
  malloc_ok : Nat → Bool
  /-- The descriptor `open(path, flags)` returns; negative on failure. -/
  open_ret : List Char → Int → Int
  /-- The status `setns(fd, nstype)` returns; `0` on success. -/
  setns_ret : Int → Int → Int
  /-- The namespace the descriptor `fd` refers to. -/
  ns_of : Int → Nat

/-- The part of the calling process that `nsenter` can touch. -/
structure Proc where
  /-- Identity of the network namespace the caller is a member of. -/
  netns : Nat
  /-- The open descriptors of the process. -/
  fds : List Int
  /-- Number of live heap blocks. -/
  heap : Nat
  deriving DecidableEq

/-- One call to the platform, with its arguments and its answer. -/
inductive Call where
  | malloc (size : Nat) (ok : Bool)
  | open_ (path : List Char) (flags : Int) (ret : Int)
  | setns (fd : Int) (nstype : Int) (ret : Int)
  | free
  | close (fd : Int)
  deriving DecidableEq

/-- Process state together with the log of platform calls, oldest first. -/
structure World where
  proc : Proc
  calls : List Call
  deriving DecidableEq

/-- The call `malloc(size)`: on success one more live block. -/
def malloc (p : Platform) (size : Nat) (w : World) : Bool × World :=
  let ok := p.malloc_ok size
  (ok, { proc := if ok then { w.proc with heap := w.proc.heap + 1 } else w.proc,
         calls := w.calls ++ [Call.malloc size ok] })

/-- The call `free(path)`: one live block fewer. -/
def free (w : World) : World :=
  { proc := { w.proc with heap := w.proc.heap - 1 },
    calls := w.calls ++ [Call.free] }

/-- The call `open(path, flags)`: a non-negative answer is a new open
descriptor of the process. -/
def open_ (p : Platform) (path : List Char) (flags : Int) (w : World) : Int × World :=
  let fd := p.open_ret path flags
  (fd, { proc := if fd < 0 then w.proc else { w.proc with fds := fd :: w.proc.fds },
         calls := w.calls ++ [Call.open_ path flags fd] })

/-- The call `setns(fd, nstype)`: on status `0` the caller is a member of the
namespace `fd` refers to; on any other status nothing changes. -/
def setns (p : Platform) (fd nstype : Int) (w : World) : Int × World :=
  let r := p.setns_ret fd nstype
  (r, { proc := if r = 0 then { w.proc with netns := p.ns_of fd } else w.proc,
        calls := w.calls ++ [Call.setns fd nstype r] })

/-- The call `close(fd)`: the descriptor is no longer open. -/
def close (fd : Int) (w : World) : World :=
  { proc := { w.proc with fds := w.proc.fds.erase fd },
    calls := w.calls ++ [Call.close fd] }

/-! ## The function -/

/-- The function `nsenter` of `nsenter.c`, statement by statement. -/
def nsenter (p : Platform) (nsPid : Int) (w : World) : Int × World :=
  -- path = malloc(sizeof(char)*64);
  let (path_ok, w) := malloc p PATH_BYTES w
  -- if (path == NULL) return -1;
  if path_ok = false then (-1, w)
  else
    -- sprintf(path, "/proc/%d/ns/net", nsPid);
    let path := ns_path nsPid
    -- nsFd = open(path, O_RDONLY);
    let (nsFd, w) := open_ p path O_RDONLY w
    -- if (nsFd < 0) { free(path); return -1; }
    if nsFd < 0 then
      let w := free w
      (-1, w)
    else
      -- ret = setns(nsFd, CLONE_NEWNET);
      let (ret, w) := setns p nsFd CLONE_NEWNET w
      -- free(path);
      let w := free w
      -- close(nsFd);
      let w := close nsFd w
      -- return ret;
      (ret, w)

/-- Successive calls of `nsenter` with the same argument, the platform
answering the `k`-th call as the `k`-th record of the list says.  The result
is the list of returned values and the final state. -/
def nsenter_repeat : List Platform → Int → World → List Int × World
  | [], _, w => ([], w)
  | p :: ps, nsPid, w =>
    let (r, w1) := nsenter p nsPid w
    let (rs, w2) := nsenter_repeat ps nsPid w1
    (r :: rs, w2)

/-- The calls one invocation of `nsenter` adds to the log. -/
def made (p : Platform) (nsPid : Int) (w : World) : List Call :=
  (nsenter p nsPid w).2.calls.drop w.calls.length

/-- Is the call a system call (`open`, `setns`, `close`) rather than a call to
the heap of the C library (`malloc`, `free`)? -/
def is_syscall : Call → Bool
  | Call.open_ _ _ _ => true
  | Call.setns _ _ _ => true
  | Call.close _ => true
  | Call.malloc _ _ => false
  | Call.free => false

/-- The system calls of a log, in order. -/
def syscalls (cs : List Call) : List Call := cs.filter is_syscall

/-! ## What the spec says the path is -/

/-- The signed decimal rendering of an integer, in the spec's words: the
standard rendering of integers, a minus sign in front of the digits of a
negative value. -/
def signed_decimal (i : Int) : List Char := (Int.repr i).toList

/-- The path of the spec: `/proc/<pid>/ns/net`. -/
def spec_path (pid : Int) : List Char :=
  "/proc/".toList ++ signed_decimal pid ++ "/ns/net".toList

/-! ## Sample platforms and states -/

/-- A process in namespace `1` with the three standard descriptors open. -/
def W0 : World := ⟨⟨1, [0, 1, 2], 0⟩, []⟩

/-- A platform on which everything succeeds: `open` gives descriptor `3`,
which refers to namespace `7`. -/
def P_ok : Platform := ⟨fun _ => true, fun _ _ => 3, fun _ _ => 0, fun _ => 7⟩

/-- A platform without memory. -/
def P_nomem : Platform := ⟨fun _ => false, fun _ _ => 3, fun _ _ => 0, fun _ => 7⟩

/-- A platform on which `open` fails (no such process). -/
def P_noent : Platform := ⟨fun _ => true, fun _ _ => -1, fun _ _ => 0, fun _ => 7⟩

/-- A platform on which `setns` fails (no privilege) with the status `-1`
that the system call reports on error. -/
def P_eperm : Platform := ⟨fun _ => true, fun _ _ => 3, fun _ _ => -1, fun _ => 7⟩

end Nsenter

namespace Nsenter

/-! ## The three paths through `nsenter` -/

/-- Allocation failure: `-1`, and `malloc` is the only call. -/
theorem nsenter_nomem (p : Platform) (nsPid : Int) (w : World)
    (hm : p.malloc_ok PATH_BYTES = false) :
    nsenter p nsPid w = (-1, ⟨w.proc, w.calls ++ [Call.malloc PATH_BYTES false]⟩) := by
  simp [nsenter, malloc, hm]

/-- Open failure: `-1`, the buffer is freed, the process is as before. -/
theorem nsenter_noopen (p : Platform) (nsPid : Int) (w : World)
    (hm : p.malloc_ok PATH_BYTES = true)
    (ho : p.open_ret (ns_path nsPid) O_RDONLY < 0) :
    nsenter p nsPid w =
      (-1, ⟨w.proc, w.calls ++ [Call.malloc PATH_BYTES true,
          Call.open_ (ns_path nsPid) O_RDONLY (p.open_ret (ns_path nsPid) O_RDONLY),
          Call.free]⟩) := by
  simp [nsenter, malloc, open_, free, hm, ho]

/-- Open success: the status of `setns`, the buffer is freed, the descriptor
closed, and the namespace is the target's exactly when the status is `0`. -/
theorem nsenter_opened (p : Platform) (nsPid : Int) (w : World)
    (hm : p.malloc_ok PATH_BYTES = true)
    (ho : 0 ≤ p.open_ret (ns_path nsPid) O_RDONLY) :
    nsenter p nsPid w =
      (p.setns_ret (p.open_ret (ns_path nsPid) O_RDONLY) CLONE_NEWNET,
       ⟨{ netns := if p.setns_ret (p.open_ret (ns_path nsPid) O_RDONLY) CLONE_NEWNET = 0
                   then p.ns_of (p.open_ret (ns_path nsPid) O_RDONLY) else w.proc.netns,
          fds := w.proc.fds, heap := w.proc.heap },
        w.calls ++ [Call.malloc PATH_BYTES true,
          Call.open_ (ns_path nsPid) O_RDONLY (p.open_ret (ns_path nsPid) O_RDONLY),
          Call.setns (p.open_ret (ns_path nsPid) O_RDONLY) CLONE_NEWNET
            (p.setns_ret (p.open_ret (ns_path nsPid) O_RDONLY) CLONE_NEWNET),
          Call.free,
          Call.close (p.open_ret (ns_path nsPid) O_RDONLY)]⟩) := by
  have ho' : ¬ p.open_ret (ns_path nsPid) O_RDONLY < 0 := not_lt.mpr ho
  simp [nsenter, malloc, open_, free, setns, close, hm, ho']
  split_ifs <;> simp

/-- The log only grows: an invocation appends its calls to the log. -/
theorem calls_eq_append_made (p : Platform) (nsPid : Int) (w : World) :
    (nsenter p nsPid w).2.calls = w.calls ++ made p nsPid w := by
  unfold made
  cases hm : p.malloc_ok PATH_BYTES
  · rw [nsenter_nomem p nsPid w hm]; simp
  · rcases lt_or_le (p.open_ret (ns_path nsPid) O_RDONLY) 0 with ho | ho
    · rw [nsenter_noopen p nsPid w hm ho]; simp
    · rw [nsenter_opened p nsPid w hm ho]; simp

/-- The calls of the allocation-failure path. -/
theorem made_nomem (p : Platform) (nsPid : Int) (w : World)
    (hm : p.malloc_ok PATH_BYTES = false) :
    made p nsPid w = [Call.malloc PATH_BYTES false] := by
  simp [made, nsenter_nomem p nsPid w hm]

/-- The calls of the open-failure path. -/
theorem made_noopen (p : Platform) (nsPid : Int) (w : World)
    (hm : p.malloc_ok PATH_BYTES = true)
    (ho : p.open_ret (ns_path nsPid) O_RDONLY < 0) :
    made p nsPid w = [Call.malloc PATH_BYTES true,
      Call.open_ (ns_path nsPid) O_RDONLY (p.open_ret (ns_path nsPid) O_RDONLY),
      Call.free] := by
  simp [made, nsenter_noopen p nsPid w hm ho]

/-- The calls of the path on which the descriptor was opened. -/
theorem made_opened (p : Platform) (nsPid : Int) (w : World)
    (hm : p.malloc_ok PATH_BYTES = true)
    (ho : 0 ≤ p.open_ret (ns_path nsPid) O_RDONLY) :
    made p nsPid w = [Call.malloc PATH_BYTES true,
      Call.open_ (ns_path nsPid) O_RDONLY (p.open_ret (ns_path nsPid) O_RDONLY),
      Call.setns (p.open_ret (ns_path nsPid) O_RDONLY) CLONE_NEWNET
        (p.setns_ret (p.open_ret (ns_path nsPid) O_RDONLY) CLONE_NEWNET),
      Call.free,
      Call.close (p.open_ret (ns_path nsPid) O_RDONLY)] := by
  simp [made, nsenter_opened p nsPid w hm ho]

/-- Whatever the platform answers, the heap and the descriptors of the process
are the same after `nsenter` as before. -/
theorem resources_restored (p : Platform) (nsPid : Int) (w : World) :
    (nsenter p nsPid w).2.proc.fds = w.proc.fds ∧
    (nsenter p nsPid w).2.proc.heap = w.proc.heap := by
  cases hm : p.malloc_ok PATH_BYTES
  · rw [nsenter_nomem p nsPid w hm]; simp
  · rcases lt_or_le (p.open_ret (ns_path nsPid) O_RDONLY) 0 with ho | ho
    · rw [nsenter_noopen p nsPid w hm ho]; simp
    · rw [nsenter_opened p nsPid w hm ho]; simp

/-! ## C1: open failure -/

/-- C1: whenever the platform refuses to open the namespace path (`open`
answers a negative descriptor), `nsenter` returns `-1`, its calls contain no
`setns` and no `close`, and the caller is in the same network namespace
after the call as before. -/
theorem open_failure_no_switch (p : Platform) (nsPid : Int) (w : World)
    (ho : p.open_ret (ns_path nsPid) O_RDONLY < 0) :
    (nsenter p nsPid w).1 = -1 ∧
    (∀ fd nstype r, Call.setns fd nstype r ∉ made p nsPid w) ∧
    (∀ fd, Call.close fd ∉ made p nsPid w) ∧
    (nsenter p nsPid w).2.proc.netns = w.proc.netns := by
  cases hm : p.malloc_ok PATH_BYTES
  · rw [made_nomem p nsPid w hm, nsenter_nomem p nsPid w hm]; simp
  · rw [made_noopen p nsPid w hm ho, nsenter_noopen p nsPid w hm ho]; simp

/-- C1 at a target that does not exist: PID `999999` on `P_noent`. -/
theorem open_failure_no_switch_witness :
    P_noent.open_ret (ns_path 999999) O_RDONLY < 0 ∧
    (nsenter P_noent 999999 W0).1 = -1 ∧
    (nsenter P_noent 999999 W0).2.proc.netns = 1 :=
  ⟨by decide, (open_failure_no_switch P_noent 999999 W0 (by decide)).1,
    (open_failure_no_switch P_noent 999999 W0 (by decide)).2.2.2⟩

/-! ## C2: the descriptor is closed exactly once -/

/-- C2: when the allocation and the open succeed, the calls of `nsenter`
contain exactly one `close` of the descriptor `open` answered, it is the last
call (so it comes after the `setns`, whatever status that reported), and no
other descriptor is closed; and on every path, the three outcomes included,
the open descriptors of the process are the same after the call as before. -/
theorem handle_closed_exactly_once (p : Platform) (nsPid : Int) (w : World) :
    (p.malloc_ok PATH_BYTES = true → 0 ≤ p.open_ret (ns_path nsPid) O_RDONLY →
      (made p nsPid w).count (Call.close (p.open_ret (ns_path nsPid) O_RDONLY)) = 1 ∧
      (made p nsPid w).getLast? = some (Call.close (p.open_ret (ns_path nsPid) O_RDONLY)) ∧
      ∀ fd, Call.close fd ∈ made p nsPid w → fd = p.open_ret (ns_path nsPid) O_RDONLY) ∧
    (nsenter p nsPid w).2.proc.fds = w.proc.fds := by
  refine ⟨fun hm ho => ?_, (resources_restored p nsPid w).1⟩
  rw [made_opened p nsPid w hm ho]
  refine ⟨?_, by simp, ?_⟩
  · simp [List.count_cons]
  · intro fd hfd
    simpa using hfd

/-- C2 on the success path and on the switch-failure path: descriptor `3` is
closed once and the descriptors `0, 1, 2` are what is open afterwards. -/
theorem handle_closed_exactly_once_witness :
    (made P_ok 1 W0).count (Call.close 3) = 1 ∧
    (made P_eperm 1 W0).count (Call.close 3) = 1 ∧
    (nsenter P_ok 1 W0).2.proc.fds = [0, 1, 2] ∧
    (nsenter P_eperm 1 W0).2.proc.fds = [0, 1, 2] ∧
    (nsenter P_noent 1 W0).2.proc.fds = [0, 1, 2] :=
  ⟨((handle_closed_exactly_once P_ok 1 W0).1 rfl (by decide)).1,
   ((handle_closed_exactly_once P_eperm 1 W0).1 rfl (by decide)).1,
   (handle_closed_exactly_once P_ok 1 W0).2,
   (handle_closed_exactly_once P_eperm 1 W0).2,
   (handle_closed_exactly_once P_noent 1 W0).2⟩

/-! ## C3: success only through a successful switch -/

/-- C3: if `nsenter` returns `0` then its calls contain a `setns` on the
opened descriptor with the selector `CLONE_NEWNET` that reported `0`; if the
allocation fails the result is `-1`; if the open fails the result is `-1`;
and if the switch reports a status other than `0` the result is that status,
hence not `0`. -/
theorem success_only_if_switch_succeeded (p : Platform) (nsPid : Int) (w : World) :
    ((nsenter p nsPid w).1 = 0 →
      Call.setns (p.open_ret (ns_path nsPid) O_RDONLY) CLONE_NEWNET 0 ∈ made p nsPid w) ∧
    (p.malloc_ok PATH_BYTES = false → (nsenter p nsPid w).1 = -1) ∧
    (p.open_ret (ns_path nsPid) O_RDONLY < 0 → (nsenter p nsPid w).1 = -1) ∧
    (p.malloc_ok PATH_BYTES = true → 0 ≤ p.open_ret (ns_path nsPid) O_RDONLY →
      p.setns_ret (p.open_ret (ns_path nsPid) O_RDONLY) CLONE_NEWNET ≠ 0 →
      (nsenter p nsPid w).1 = p.setns_ret (p.open_ret (ns_path nsPid) O_RDONLY) CLONE_NEWNET ∧
      (nsenter p nsPid w).1 ≠ 0) := by
  refine ⟨?_, ?_, ?_, ?_⟩
  · intro h0
    cases hm : p.malloc_ok PATH_BYTES
    · rw [nsenter_nomem p nsPid w hm] at h0
      exact absurd (show (-1 : Int) = 0 from h0) (by decide)
    · rcases lt_or_le (p.open_ret (ns_path nsPid) O_RDONLY) 0 with ho | ho
      · rw [nsenter_noopen p nsPid w hm ho] at h0
        exact absurd (show (-1 : Int) = 0 from h0) (by decide)
      · rw [nsenter_opened p nsPid w hm ho] at h0
        rw [made_opened p nsPid w hm ho]
        have h0' : p.setns_ret (p.open_ret (ns_path nsPid) O_RDONLY) CLONE_NEWNET = 0 := h0
        simp [h0']
  · intro hm
    rw [nsenter_nomem p nsPid w hm]
  · intro ho
    cases hm : p.malloc_ok PATH_BYTES
    · rw [nsenter_nomem p nsPid w hm]
    · rw [nsenter_noopen p nsPid w hm ho]
  · intro hm ho hs
    rw [nsenter_opened p nsPid w hm ho]
    exact ⟨rfl, hs⟩

/-- C3 on four platforms: success, no memory, no such process, no privilege. -/
theorem success_only_if_switch_succeeded_witness :
    Call.setns 3 CLONE_NEWNET 0 ∈ made P_ok 1 W0 ∧
    (nsenter P_nomem 1 W0).1 = -1 ∧
    (nsenter P_noent 1 W0).1 = -1 ∧
    (nsenter P_eperm 1 W0).1 ≠ 0 :=
  ⟨(success_only_if_switch_succeeded P_ok 1 W0).1 (by decide),
   (success_only_if_switch_succeeded P_nomem 1 W0).2.1 rfl,
   (success_only_if_switch_succeeded P_noent 1 W0).2.2.1 (by decide),
   ((success_only_if_switch_succeeded P_eperm 1 W0).2.2.2 rfl (by decide) (by decide)).2⟩

/-! ## C4: are the two failures told apart by the result? -/

/-- C4 as stated fails: on `P_noent` the open fails, on `P_eperm` the open
succeeds and the switch fails with the status `-1` of a failed system call,
and `nsenter` returns the same value, `-1`, in both runs. -/
theorem failure_causes_same_result :
    P_noent.malloc_ok PATH_BYTES = true ∧
    P_noent.open_ret (ns_path 1) O_RDONLY < 0 ∧
    P_eperm.malloc_ok PATH_BYTES = true ∧
    0 ≤ P_eperm.open_ret (ns_path 1) O_RDONLY ∧
    P_eperm.setns_ret (P_eperm.open_ret (ns_path 1) O_RDONLY) CLONE_NEWNET ≠ 0 ∧
    (nsenter P_noent 1 W0).1 = (nsenter P_eperm 1 W0).1 := by
  decide

/-- C4 as amended: of two runs, one in which the open failed and one in which
the open succeeded and the switch reported a status other than `0`, the first
returns `-1` and the second the status of the switch, both differ from the
success value `0`, and the two values differ exactly when that status is not
`-1`. -/
theorem failure_causes_differ_iff (pa pb : Platform) (pidA pidB : Int) (wa wb : World)
    (hoa : pa.open_ret (ns_path pidA) O_RDONLY < 0)
    (hmb : pb.malloc_ok PATH_BYTES = true)
    (hob : 0 ≤ pb.open_ret (ns_path pidB) O_RDONLY)
    (hsb : pb.setns_ret (pb.open_ret (ns_path pidB) O_RDONLY) CLONE_NEWNET ≠ 0) :
    (nsenter pa pidA wa).1 = -1 ∧
    (nsenter pb pidB wb).1 = pb.setns_ret (pb.open_ret (ns_path pidB) O_RDONLY) CLONE_NEWNET ∧
    (nsenter pa pidA wa).1 ≠ 0 ∧ (nsenter pb pidB wb).1 ≠ 0 ∧
    ((nsenter pa pidA wa).1 ≠ (nsenter pb pidB wb).1 ↔
      pb.setns_ret (pb.open_ret (ns_path pidB) O_RDONLY) CLONE_NEWNET ≠ -1) := by
  have ha : (nsenter pa pidA wa).1 = -1 := by
    cases hm : pa.malloc_ok PATH_BYTES
    · rw [nsenter_nomem pa pidA wa hm]
    · rw [nsenter_noopen pa pidA wa hm hoa]
  have hb : (nsenter pb pidB wb).1 =
      pb.setns_ret (pb.open_ret (ns_path pidB) O_RDONLY) CLONE_NEWNET := by
    rw [nsenter_opened pb pidB wb hmb hob]
  refine ⟨ha, hb, ?_, ?_, ?_⟩
  · rw [ha]; decide
  · rw [hb]; exact hsb
  · rw [ha, hb]
    exact ⟨fun h e => h e.symm, fun h e => h e.symm⟩

/-- C4 as amended, at a switch that reports `-1`: the two results are `-1`
and `-1`. -/
theorem failure_causes_differ_iff_witness :
    (nsenter P_noent 999999 W0).1 = -1 ∧ (nsenter P_eperm 1 W0).1 = -1 :=
  ⟨(failure_causes_differ_iff P_noent P_eperm 999999 1 W0 W0
      (by decide) rfl (by decide) (by decide)).1,
   (failure_causes_differ_iff P_noent P_eperm 999999 1 W0 W0
      (by decide) rfl (by decide) (by decide)).2.1⟩

/-! ## C5: the status of the switch is the result -/

/-- C5: when the allocation and the open succeed, `nsenter` returns exactly
the status that the one `setns` call of the run reported for the opened
descriptor; the `free` and the `close` that follow do not alter it. -/
theorem returns_switch_status (p : Platform) (nsPid : Int) (w : World)
    (hm : p.malloc_ok PATH_BYTES = true)
    (ho : 0 ≤ p.open_ret (ns_path nsPid) O_RDONLY) :
    (nsenter p nsPid w).1 = p.setns_ret (p.open_ret (ns_path nsPid) O_RDONLY) CLONE_NEWNET ∧
    (∀ fd nstype r, Call.setns fd nstype r ∈ made p nsPid w → r = (nsenter p nsPid w).1) := by
  rw [made_opened p nsPid w hm ho, nsenter_opened p nsPid w hm ho]
  refine ⟨rfl, ?_⟩
  intro fd nstype r h
  simp at h
  exact h.2.2

/-- C5 on a failed and on a successful switch. -/
theorem returns_switch_status_witness :
    (nsenter P_eperm 1 W0).1 = -1 ∧ (nsenter P_ok 1 W0).1 = 0 :=
  ⟨(returns_switch_status P_eperm 1 W0 rfl (by decide)).1,
   (returns_switch_status P_ok 1 W0 rfl (by decide)).1⟩

/-! ## C6: the path -/

/-- The digit characters of the model are those of the standard rendering. -/
theorem digit_eq_digitChar (d : Nat) (h : d < 10) : digit d = Nat.digitChar d := by
  interval_cases d <;> rfl

/-- The digit loop of the model computes the standard decimal digits. -/
theorem utoa_eq_toDigitsCore (fuel n : Nat) (acc : List Char) :
    utoa fuel n acc = Nat.toDigitsCore 10 fuel n acc := by
  induction fuel generalizing n acc with
  | zero => rfl
  | succ k ih =>
    simp only [utoa, Nat.toDigitsCore, digit_eq_digitChar (n % 10) (Nat.mod_lt n (by decide)), ih]

/-- The conversion `%d` writes the signed decimal rendering. -/
theorem fmt_d_eq_signed_decimal (i : Int) : fmt_d i = signed_decimal i := by
  cases i with
  | ofNat m =>
    have h : ¬ (Int.ofNat m < 0) := by simp
    simp [fmt_d, signed_decimal, Int.repr, Nat.repr, Nat.toDigits, utoa_eq_toDigitsCore, h,
      List.asString]
  | negSucc m =>
    have h : Int.negSucc m < 0 := Int.negSucc_lt_zero m
    simp [fmt_d, signed_decimal, Int.repr, Nat.repr, Nat.toDigits, utoa_eq_toDigitsCore, h,
      List.asString]

/-- What `sprintf` makes of the format of the path. -/
theorem ns_path_eq_fmt (nsPid : Int) :
    ns_path nsPid = "/proc/".toList ++ fmt_d nsPid ++ "/ns/net".toList := rfl

/-- The path of the code is the path of the spec. -/
theorem ns_path_eq_spec_path (nsPid : Int) : ns_path nsPid = spec_path nsPid := by
  rw [ns_path_eq_fmt, fmt_d_eq_signed_decimal, spec_path]

/-- C6: for every integer PID, zero and negative ones included, every `open`
among the calls of `nsenter` is passed exactly `"/proc/"` followed by the
signed decimal rendering of the PID followed by `"/ns/net"`, with the flag
`O_RDONLY`; and the open is attempted exactly when the allocation succeeds,
whatever the PID is, so no PID is rejected before it. -/
theorem open_path_is_proc_pid_ns_net (p : Platform) (nsPid : Int) (w : World) :
    (∀ path flags fd, Call.open_ path flags fd ∈ made p nsPid w →
      path = "/proc/".toList ++ signed_decimal nsPid ++ "/ns/net".toList ∧
      flags = O_RDONLY) ∧
    ((∃ fd, Call.open_ ("/proc/".toList ++ signed_decimal nsPid ++ "/ns/net".toList)
        O_RDONLY fd ∈ made p nsPid w) ↔ p.malloc_ok PATH_BYTES = true) := by
  have hp : "/proc/".toList ++ signed_decimal nsPid ++ "/ns/net".toList = ns_path nsPid :=
    (ns_path_eq_spec_path nsPid).symm
  rw [hp]
  cases hm : p.malloc_ok PATH_BYTES
  · rw [made_nomem p nsPid w hm]; simp
  · rcases lt_or_le (p.open_ret (ns_path nsPid) O_RDONLY) 0 with ho | ho
    · rw [made_noopen p nsPid w hm ho]
      refine ⟨?_, ?_⟩
      · intro path flags fd h
        simp at h
        exact ⟨h.1, h.2.1⟩
      · simp
    · rw [made_opened p nsPid w hm ho]
      refine ⟨?_, ?_⟩
      · intro path flags fd h
        simp at h
        exact ⟨h.1, h.2.1⟩
      · simp

/-- C6 at the PIDs `0` and `-5`: the paths opened carry `0` and `-5` between
`/proc/` and `/ns/net`. -/
theorem open_path_is_proc_pid_ns_net_witness :
    Call.open_ "/proc/0/ns/net".toList O_RDONLY 3 ∈ made P_ok 0 W0 ∧
    Call.open_ "/proc/-5/ns/net".toList O_RDONLY (-1) ∈ made P_noent (-5) W0 ∧
    (∃ fd, Call.open_ ("/proc/".toList ++ signed_decimal (-5) ++ "/ns/net".toList)
        O_RDONLY fd ∈ made P_noent (-5) W0) :=
  ⟨by decide, by decide, (open_path_is_proc_pid_ns_net P_noent (-5) W0).2.mpr rfl⟩

/-! ## C7: the order of the system calls -/

/-- C7 as stated fails: when the allocation fails `nsenter` returns without a
single system call, so the sequence of its calls does not hold the one
read-only open the claim puts first. -/
theorem no_open_without_memory :
    P_nomem.malloc_ok PATH_BYTES = false ∧
    made P_nomem 1 W0 = [Call.malloc PATH_BYTES false] ∧
    syscalls (made P_nomem 1 W0) = [] := by
  decide

/-- C7 as amended: the system calls of one invocation are, in order: none
when the allocation fails; otherwise one `open` of the namespace path with
`O_RDONLY`; then, only if it answered a non-negative descriptor, one `setns`
on that descriptor with `CLONE_NEWNET`, then one `close` of that same
descriptor.  So the switch never precedes the open, the close never precedes
the switch, and there is at most one of each. -/
theorem platform_call_sequence (p : Platform) (nsPid : Int) (w : World) :
    syscalls (made p nsPid w) =
      if p.malloc_ok PATH_BYTES = false then []
      else if p.open_ret (ns_path nsPid) O_RDONLY < 0 then
        [Call.open_ (ns_path nsPid) O_RDONLY (p.open_ret (ns_path nsPid) O_RDONLY)]
      else
        [Call.open_ (ns_path nsPid) O_RDONLY (p.open_ret (ns_path nsPid) O_RDONLY),
         Call.setns (p.open_ret (ns_path nsPid) O_RDONLY) CLONE_NEWNET
           (p.setns_ret (p.open_ret (ns_path nsPid) O_RDONLY) CLONE_NEWNET),
         Call.close (p.open_ret (ns_path nsPid) O_RDONLY)] := by
  cases hm : p.malloc_ok PATH_BYTES
  · rw [made_nomem p nsPid w hm]; rfl
  · rcases lt_or_le (p.open_ret (ns_path nsPid) O_RDONLY) 0 with ho | ho
    · rw [made_noopen p nsPid w hm ho]
      simp [syscalls, is_syscall, ho]
    · rw [made_opened p nsPid w hm ho]
      simp [syscalls, is_syscall, not_lt.mpr ho]

/-- C7 as amended, on the success path: open, switch, close of descriptor `3`. -/
theorem platform_call_sequence_witness :
    syscalls (made P_ok 1 W0) =
      [Call.open_ "/proc/1/ns/net".toList O_RDONLY 3, Call.setns 3 CLONE_NEWNET 0,
       Call.close 3] :=
  (platform_call_sequence P_ok 1 W0).trans (by decide)

/-! ## C8: failure is idempotent -/

/-- A call whose open fails returns `-1` and leaves the process as it was. -/
theorem open_failure_state (p : Platform) (nsPid : Int) (w : World)
    (ho : p.open_ret (ns_path nsPid) O_RDONLY < 0) :
    (nsenter p nsPid w).1 = -1 ∧ (nsenter p nsPid w).2.proc = w.proc := by
  cases hm : p.malloc_ok PATH_BYTES
  · rw [nsenter_nomem p nsPid w hm]; exact ⟨rfl, rfl⟩
  · rw [nsenter_noopen p nsPid w hm ho]; exact ⟨rfl, rfl⟩

/-- C8: for a PID whose namespace path cannot be opened, any number of
successive calls of `nsenter` (one per platform record of `ps`, each of
which refuses the open) return `-1` every time and leave the process
(namespace, open descriptors, heap) exactly as it was before the first call. -/
theorem failure_idempotent (ps : List Platform) (nsPid : Int) (w : World)
    (ho : ∀ p ∈ ps, p.open_ret (ns_path nsPid) O_RDONLY < 0) :
    (nsenter_repeat ps nsPid w).1 = List.replicate ps.length (-1) ∧
    (nsenter_repeat ps nsPid w).2.proc = w.proc := by
  induction ps generalizing w with
  | nil => exact ⟨rfl, rfl⟩
  | cons p ps ih =>
    have h1 := open_failure_state p nsPid w (ho p (List.mem_cons_self p ps))
    have h2 := ih (nsenter p nsPid w).2 (fun q hq => ho q (List.mem_cons_of_mem p hq))
    simp only [nsenter_repeat, List.length_cons, List.replicate_succ]
    exact ⟨by rw [h1.1, h2.1], by rw [h2.2, h1.2]⟩

/-- C8 at PID `999999`, three calls, the second of them without memory. -/
theorem failure_idempotent_witness :
    (nsenter_repeat [P_noent, { P_noent with malloc_ok := fun _ => false }, P_noent]
      999999 W0).1 = [-1, -1, -1] ∧
    (nsenter_repeat [P_noent, { P_noent with malloc_ok := fun _ => false }, P_noent]
      999999 W0).2.proc = W0.proc :=
  failure_idempotent [P_noent, { P_noent with malloc_ok := fun _ => false }, P_noent]
    999999 W0 (by decide)

/-! ## C9: the exits -/

/-- C9 as stated fails twice.  Without memory `nsenter` returns the failure
value `-1` although neither an open nor a switch has failed (none was made):
a third failure exit.  And the exit taken when the open fails makes no
`close`: its only system call is the failed `open`. -/
theorem exits_not_two_nor_one_cleanup :
    (nsenter P_nomem 1 W0).1 = -1 ∧
    syscalls (made P_nomem 1 W0) = [] ∧
    (nsenter P_noent 1 W0).1 = -1 ∧
    syscalls (made P_noent 1 W0) = [Call.open_ (ns_path 1) O_RDONLY (-1)] ∧
    made P_noent 1 W0 =
      [Call.malloc PATH_BYTES true, Call.open_ (ns_path 1) O_RDONLY (-1), Call.free] := by
  decide

/-- C9 as amended: `nsenter` has three failure exits and one success exit.
A run that returns a value other than `0` is one in which the allocation
failed, or the open failed, or the switch reported a status other than `0`.
The two exits behind a successful open (switch failed, switch succeeded) end
with the same cleanup, `free` then `close` of the opened descriptor; the
open-failure exit ends with `free` and closes nothing; the allocation-failure
exit frees and closes nothing. -/
theorem exits_classified (p : Platform) (nsPid : Int) (w : World) :
    ((nsenter p nsPid w).1 ≠ 0 →
      p.malloc_ok PATH_BYTES = false ∨
      (p.malloc_ok PATH_BYTES = true ∧ p.open_ret (ns_path nsPid) O_RDONLY < 0) ∨
      (p.malloc_ok PATH_BYTES = true ∧ 0 ≤ p.open_ret (ns_path nsPid) O_RDONLY ∧
        p.setns_ret (p.open_ret (ns_path nsPid) O_RDONLY) CLONE_NEWNET ≠ 0)) ∧
    (p.malloc_ok PATH_BYTES = true → 0 ≤ p.open_ret (ns_path nsPid) O_RDONLY →
      (made p nsPid w).drop 3 =
        [Call.free, Call.close (p.open_ret (ns_path nsPid) O_RDONLY)]) ∧
    (p.malloc_ok PATH_BYTES = true → p.open_ret (ns_path nsPid) O_RDONLY < 0 →
      (made p nsPid w).drop 2 = [Call.free] ∧ ∀ fd, Call.close fd ∉ made p nsPid w) ∧
    (p.malloc_ok PATH_BYTES = false →
      Call.free ∉ made p nsPid w ∧ ∀ fd, Call.close fd ∉ made p nsPid w) := by
  refine ⟨?_, ?_, ?_, ?_⟩
  · intro hr
    cases hm : p.malloc_ok PATH_BYTES
    · exact Or.inl rfl
    · rcases lt_or_le (p.open_ret (ns_path nsPid) O_RDONLY) 0 with ho | ho
      · exact Or.inr (Or.inl ⟨rfl, ho⟩)
      · rw [nsenter_opened p nsPid w hm ho] at hr
        exact Or.inr (Or.inr ⟨rfl, ho, hr⟩)
  · intro hm ho
    rw [made_opened p nsPid w hm ho]; rfl
  · intro hm ho
    rw [made_noopen p nsPid w hm ho]
    exact ⟨rfl, by simp⟩
  · intro hm
    rw [made_nomem p nsPid w hm]
    simp

/-- C9 as amended, at the four exits. -/
theorem exits_classified_witness :
    (made P_ok 1 W0).drop 3 = [Call.free, Call.close 3] ∧
    (made P_eperm 1 W0).drop 3 = [Call.free, Call.close 3] ∧
    (made P_noent 1 W0).drop 2 = [Call.free] ∧
    Call.free ∉ made P_nomem 1 W0 :=
  ⟨(exits_classified P_ok 1 W0).2.1 rfl (by decide),
   (exits_classified P_eperm 1 W0).2.1 rfl (by decide),
   ((exits_classified P_noent 1 W0).2.2.1 rfl (by decide)).1,
   ((exits_classified P_nomem 1 W0).2.2.2 rfl).1⟩

/-! ## C10: the path fits the buffer -/

/-- A number below `10 ^ k` has at most `k` decimal digits. -/
theorem utoa_length_le (fuel : Nat) :
    ∀ (k n : Nat) (acc : List Char), 0 < k → n < 10 ^ k →
      (utoa fuel n acc).length ≤ acc.length + k := by
  induction fuel with
  | zero =>
    intro k n acc _ _
    simp [utoa]
  | succ f ih =>
    intro k n acc hk hn
    unfold utoa
    split_ifs with h0
    · simp only [List.length_cons]
      omega
    · obtain ⟨j, rfl⟩ : ∃ j, k = j + 1 := ⟨k - 1, by omega⟩
      have hq : n / 10 < 10 ^ j := by
        rw [Nat.div_lt_iff_lt_mul (by decide : 0 < 10)]
        rw [pow_succ] at hn
        exact hn
      have hj : 0 < j := by
        rcases Nat.eq_zero_or_pos j with hj | hj
        · subst hj
          simp at hq
          exact absurd hq h0
        · exact hj
      have := ih j (n / 10) (digit (n % 10) :: acc) hj hq
      simp only [List.length_cons] at this
      omega

/-- The conversion `%d` of a 32-bit value writes at most eleven characters. -/
theorem fmt_d_length_le (i : Int) (hlo : -2147483648 ≤ i) (hhi : i ≤ 2147483647) :
    (fmt_d i).length ≤ 11 := by
  have hn : i.natAbs < 10 ^ 10 := by omega
  have h := utoa_length_le (i.natAbs + 1) 10 i.natAbs [] (by decide) hn
  unfold fmt_d
  split_ifs
  · simp only [List.length_cons, List.length_nil] at h ⊢
    omega
  · simp only [List.length_nil] at h
    omega

/-- The digit loop writes characters of one byte. -/
theorem utoa_ascii (fuel : Nat) :
    ∀ (n : Nat) (acc : List Char), (∀ c ∈ acc, c.toNat < 128) →
      ∀ c ∈ utoa fuel n acc, c.toNat < 128 := by
  have hd : ∀ n : Nat, (digit (n % 10)).toNat < 128 := by
    intro n
    have h : n % 10 < 10 := Nat.mod_lt n (by decide)
    generalize n % 10 = d at h
    interval_cases d <;> decide
  induction fuel with
  | zero =>
    intro n acc hacc
    simpa [utoa] using hacc
  | succ f ih =>
    intro n acc hacc
    have hacc' : ∀ c ∈ digit (n % 10) :: acc, c.toNat < 128 := by
      intro c hc
      rcases List.mem_cons.mp hc with rfl | hc
      · exact hd n
      · exact hacc c hc
    unfold utoa
    split_ifs
    · exact hacc'
    · exact ih (n / 10) _ hacc'

/-- The conversion `%d` writes characters of one byte. -/
theorem fmt_d_ascii (i : Int) : ∀ c ∈ fmt_d i, c.toNat < 128 := by
  have h := utoa_ascii (i.natAbs + 1) i.natAbs [] (by simp)
  unfold fmt_d
  split_ifs
  · intro c hc
    rcases List.mem_cons.mp hc with rfl | hc
    · decide
    · exact h c hc
  · exact h

/-- C10: for every 32-bit signed PID the path `sprintf` writes, together with
its terminating NUL byte, takes at most 25 bytes, hence at most the 64 bytes
`nsenter` allocates: every character of it is a one-byte character and there
are at most 24 of them. -/
theorem path_fits_buffer (nsPid : Int)
    (hlo : -2147483648 ≤ nsPid) (hhi : nsPid ≤ 2147483647) :
    (ns_path nsPid).length + 1 ≤ 25 ∧
    (ns_path nsPid).length + 1 ≤ PATH_BYTES ∧
    ∀ c ∈ ns_path nsPid, c.toNat < 128 := by
  have hl := fmt_d_length_le nsPid hlo hhi
  have ha := fmt_d_ascii nsPid
  have hpre : ∀ c ∈ "/proc/".toList, c.toNat < 128 := by decide
  have hsuf : ∀ c ∈ "/ns/net".toList, c.toNat < 128 := by decide
  rw [ns_path_eq_fmt]
  refine ⟨?_, ?_, ?_⟩
  · simp only [List.length_append]
    have h1 : "/proc/".toList.length = 6 := rfl
    have h2 : "/ns/net".toList.length = 7 := rfl
    omega
  · simp only [List.length_append, PATH_BYTES]
    have h1 : "/proc/".toList.length = 6 := rfl
    have h2 : "/ns/net".toList.length = 7 := rfl
    omega
  · intro c hc
    rcases List.mem_append.mp hc with hc | hc
    · rcases List.mem_append.mp hc with hc | hc
      · exact hpre c hc
      · exact ha c hc
    · exact hsuf c hc

/-- C10 at the longest path, that of the least 32-bit value: 24 characters
and the NUL byte. -/
theorem path_fits_buffer_witness :
    (ns_path (-2147483648)).length + 1 = 25 ∧
    (ns_path (-2147483648)).length + 1 ≤ PATH_BYTES :=
  ⟨by decide, (path_fits_buffer (-2147483648) (by decide) (by decide)).2.1⟩

end Nsenter
